import Mathlib

/-!
Shallow embedding of `cmr-search.py` (the catalog tool adapter): the three
operations `get_datasets`, `get_data` and `download`, their record
formatters, and the argument assembly passed to the `earthaccess`
collaborator.  Collaborator calls that can raise Python exceptions are
modelled as `Except String` values (the error carries the message of the
exception, `str(e)`); record accessors that can raise are `Except String`
fields of the record structures.  `download` is modelled together with an
event trace recording which collaborator calls it performs, so that claims
about calls that must or must not happen can be stated.
-/

namespace CmrSearch

/-- Arguments dictionary assembled for the collaborator search calls. A key
absent from the Python `args` dict is `none`.  Dates are only ever passed
through the single `temporal` field, as a pair, mirroring
`args['temporal'] = (startdate, stopdate)`. -/
structure SearchArgs where
  keyword : Option String := none
  daac : Option String := none
  short_name : Option String := none
  temporal : Option (Option String × Option String) := none
  concept_id : Option String := none
deriving DecidableEq, Repr

/-- Collection record as seen by `format_dataset`: the three accessor calls
`concept_id()`, `abstract()` and `summary()['short-name']`, each of which
can raise (modelled as `Except.error msg`). -/
structure Collection where
  concept_id : Except String String
  abstract : Except String String
  summary_short_name : Except String String
deriving Repr

/-- The `RangeDateTime` dictionary of a granule's `TemporalExtent`; absent
keys default to `""` via `temporal.get(..., "")`. -/
structure RangeDateTime where
  BeginningDateTime : String
  EndingDateTime : String
deriving Repr

/-- Granule record as seen by `format_granule` and by the download
manifest.  `meta_concept_id` models `granule.get('meta', {}).get('concept-id',
'Unknown')` (the `'Unknown'` default is part of the modelled lookup, an
error models the lookup raising); `temporal` models the
`umm/TemporalExtent/RangeDateTime` chain, with `none` for an empty (falsy)
dictionary; `size` models `granule.size()`; `data_links` models
`granule.data_links()`.  `has_concept_id_attr` and `concept_id_method`
model `hasattr(granule, 'concept_id')` and `granule.concept_id()`, used
only by the download manifest. -/
structure Granule where
  meta_concept_id : Except String String
  temporal : Except String (Option RangeDateTime)
  size : Except String Nat
  data_links : Except String (List String)
  has_concept_id_attr : Bool := true
  concept_id_method : Except String String := Except.ok "Unknown"
deriving Repr

/-- One element of the list returned by `earthaccess.download`.  `path` is
`some p` when the element is a string (`isinstance(file_path, str)`);
`size` is `some bytes` when `os.path.exists(file_path)` holds with that
file size, and `none` otherwise. -/
structure FileEnt where
  path : Option String := none
  size : Option Nat := none
deriving Repr

/-- The `earthaccess` collaborator, as a black box.  `search_data` takes
the optional `count` keyword and the other keyword arguments;
`download_files` models `earthaccess.download(granules, local_path)`;
`login` yields the `authenticated` flag of the auth object. -/
structure Env where
  search_datasets : Nat → SearchArgs → Except String (List Collection)
  search_data : Option Nat → SearchArgs → Except String (List Granule)
  login : Except String Bool
  makedirs : String → Except String Unit
  download_files : List Granule → String → Except String (List FileEnt)

/-! ## format_dataset -/

/-- Embeds `format_dataset`.  The `logger.debug(props.concept_id())` call
sits before the `try` block, so a raising `concept_id` accessor propagates
(`Except.error`); inside the `try`, any accessor failure is caught and the
record renders as the empty string. -/
def format_dataset (c : Collection) : Except String String := do
  let _ ← c.concept_id
  match c.concept_id, c.abstract, c.summary_short_name with
  | .ok cid, .ok ab, .ok sn =>
      pure ("\nConceptID: " ++ cid ++ "\nDescription: " ++ ab ++ "\nShortname: " ++ sn ++ "\n")
  | _, _, _ => pure ""

/-! ## format_granule -/

/-- The `temporal_info` string of `format_granule`: empty when the lookup
raises, when the `RangeDateTime` dictionary is empty (falsy), or when the
beginning date is empty; begin-only when the ending date is empty. -/
def temporal_info (g : Granule) : String :=
  match g.temporal with
  | .error _ => ""
  | .ok none => ""
  | .ok (some t) =>
      let b := t.BeginningDateTime
      let e := t.EndingDateTime
      if b ≠ "" ∧ e ≠ "" then "Temporal: " ++ b ++ " to " ++ e
      else if b ≠ "" then "Temporal: " ++ b
      else ""

/-- The `size_info` string of `format_granule`: empty when `size()` raises
or returns a falsy (zero) value. -/
def size_info (g : Granule) : String :=
  match g.size with
  | .error _ => ""
  | .ok n => if n ≠ 0 then "Size: " ++ toString n ++ " MB" else ""

/-- The `links_info` string of `format_granule`: empty when `data_links()`
raises or returns an empty list, a single `Data Link:` line for exactly one
link, and a `Data Links:` header with indented bullets for two or more. -/
def links_info (g : Granule) : String :=
  match g.data_links with
  | .error _ => ""
  | .ok [] => ""
  | .ok [l] => "Data Link: " ++ l
  | .ok ls => "Data Links:\n" ++ String.intercalate "\n" (ls.map (fun l => "  - " ++ l))

/-- Embeds `format_granule`.  The outer `try` catches a raising concept-id
lookup and yields the minimal `ConceptID: Unknown` line; each optional
field contributes a line only when its info string is non-empty (truthy). -/
def format_granule (g : Granule) : String :=
  match g.meta_concept_id with
  | .error _ => "ConceptID: Unknown"
  | .ok cid =>
      let parts := ["ConceptID: " ++ cid]
      let parts := if temporal_info g ≠ "" then parts ++ [temporal_info g] else parts
      let parts := if size_info g ≠ "" then parts ++ [size_info g] else parts
      let parts := if links_info g ≠ "" then parts ++ [links_info g] else parts
      String.intercalate "\n" parts

/-! ## Argument assembly and the two search tools -/

/-- Embeds the `args` assembly of `get_datasets`: `keyword` and `daac` when
present, and a single paired `temporal` range when either date is present. -/
def get_datasets_args (startdate stopdate daac keyword : Option String) : SearchArgs :=
  { keyword := keyword, daac := daac,
    temporal := if startdate.isSome || stopdate.isSome then some (startdate, stopdate) else none }

/-- Embeds the `args` assembly of `get_data`: `daac` and `short_name` when
present, and a single paired `temporal` range when either date is present.
The `keyword` parameter of `get_data` is accepted but never added to the
args dictionary in the source, so it does not appear here. -/
def get_data_args (daac short_name startdate stopdate : Option String) : SearchArgs :=
  { daac := daac, short_name := short_name,
    temporal := if startdate.isSome || stopdate.isSome then some (startdate, stopdate) else none }

/-- Embeds `get_datasets`: search with a fixed count of 5, format each
collection, join with the separator.  A raising `search_datasets` call or
a raising `format_dataset` propagates (no guard at this call site). -/
def get_datasets (env : Env) (startdate stopdate daac keyword : Option String) :
    Except String String := do
  let collections ← env.search_datasets 5 (get_datasets_args startdate stopdate daac keyword)
  let strs ← collections.mapM format_dataset
  pure (String.intercalate "\n---\n" strs)

set_option linter.unusedVariables false in
/-- Embeds `get_data`: search with a fixed count of 10, format each granule
(total, never raises), join with the separator.  A raising `search_data`
call propagates.  The `keyword` parameter is accepted but unused, as in the
source. -/
def get_data (env : Env) (daac short_name startdate stopdate keyword : Option String) :
    Except String String := do
  let granules ← env.search_data (some 10) (get_data_args daac short_name startdate stopdate)
  pure (String.intercalate "\n---\n" (granules.map format_granule))

/-! ## download -/

/-- Collaborator calls performed by `download`, in order: the login, each
`earthaccess.search_data` call (with its optional `count` keyword and its
args), the `os.makedirs` call, and the batch `earthaccess.download` call
(recorded with the length of the granule list passed to it). -/
inductive Event where
  | login : Event
  | searchData (count : Option Nat) (args : SearchArgs) : Event
  | makedirs (path : String) : Event
  | downloadCall (granuleCount : Nat) (path : String) : Event
deriving DecidableEq, Repr

/-- Result of the body of `download`: a normal return value or an uncaught
exception carrying its message. -/
inductive DlRes (α : Type) where
  | ok (a : α) : DlRes α
  | err (e : String) : DlRes α
deriving Repr

/-- Computation monad for `download`: threads the event trace and
short-circuits on an uncaught exception (the trace up to the raise is
kept). -/
def DlM (α : Type) : Type := List Event → DlRes α × List Event

def DlM.pure {α : Type} (a : α) : DlM α := fun s => (.ok a, s)

def DlM.bind {α β : Type} (x : DlM α) (f : α → DlM β) : DlM β := fun s =>
  match x s with
  | (.ok a, s1) => f a s1
  | (.err e, s1) => (.err e, s1)

instance : Monad DlM where
  pure := DlM.pure
  bind := DlM.bind

/-- Records one collaborator call in the trace. -/
def emit (e : Event) : DlM Unit := fun s => (.ok (), s ++ [e])

/-- Lifts a collaborator result into the body computation: an
`Except.error` becomes an uncaught raise. -/
def liftE {α : Type} (x : Except String α) : DlM α := fun s =>
  match x with
  | .ok a => (.ok a, s)
  | .error e => (.err e, s)

/-- Python truthiness of the `concept_ids` parameter: falsy when absent
(`None`) or the empty string. -/
def cidsTruthy : Option String → Bool
  | none => false
  | some s => !s.isEmpty

/-- Splitting a character list at every occurrence of a separator
character, as Python `str.split(',')` does: `n` separators yield `n + 1`
pieces, and the empty input yields one empty piece. -/
def splitOnChar (c : Char) : List Char → List (List Char)
  | [] => [[]]
  | x :: xs =>
      match splitOnChar c xs, decide (x = c) with
      | r, true => [] :: r
      | [], false => [[x]]
      | y :: ys, false => (x :: y) :: ys

/-- Removing leading and trailing whitespace, as Python `str.strip()`
does. -/
def stripChars (cs : List Char) : List Char :=
  ((cs.dropWhile Char.isWhitespace).reverse.dropWhile Char.isWhitespace).reverse

/-- Embeds `[cid.strip() for cid in concept_ids.split(',')]`, by structural
recursion over the character list so that it computes. -/
def splitStrip (s : String) : List String :=
  (splitOnChar ',' s.data).map (fun cs => String.mk (stripChars cs))

/-- The args dictionary of a per-identifier lookup,
`search_data(concept_id=concept_id)`. -/
def cid_args (cid : String) : SearchArgs := { concept_id := some cid }

/-- Embeds the `args` assembly of the no-concept-ids branch of `download`:
`daac` and `short_name` when present, paired `temporal` when either date is
present. -/
def download_args (daac short_name startdate stopdate : Option String) : SearchArgs :=
  { daac := daac, short_name := short_name,
    temporal := if startdate.isSome || stopdate.isSome then some (startdate, stopdate) else none }

/-- Emptiness of the assembled dict (`if not args:`): none of the three
possible keys was added. -/
def download_args_empty (a : SearchArgs) : Bool :=
  a.daac.isNone && a.short_name.isNone && a.temporal.isNone

/-- The per-identifier lookup loop of `download`: one `search_data` call per
identifier, in order; an exception from one lookup is logged and the loop
continues, contributing nothing for that identifier. -/
def lookupAll (env : Env) : List String → DlM (List Granule)
  | [] => pure []
  | cid :: rest => do
      emit (Event.searchData none (cid_args cid))
      let here := match env.search_data none (cid_args cid) with
        | .ok res => res
        | .error _ => []
      let more ← lookupAll env rest
      pure (here ++ more)

/-- Embeds `os.path.basename` for the manifest file names. -/
def basename (p : String) : String := ((p.splitOn "/").getLast?).getD ""

/-- Renders `f"{size_mb:.2f}"` for `size_mb = bytes / (1024 * 1024)`: the
two-decimal rendering of the megabyte value, with the binary floating
point rounding approximated as round-half-up on hundredths. -/
def format_mb (bytes : Nat) : String :=
  let h := (bytes * 100 + 524288) / 1048576
  let q := h / 100
  let r := h % 100
  let rs := if r < 10 then "0" ++ toString r else toString r
  toString q ++ "." ++ rs

/-- One manifest line of `download` for pair index `i`: the per-line `try`
catches a raising `concept_id()` and substitutes the placeholder
`Downloaded file i` line. -/
def manifestLine (i : Nat) (g : Granule) (f : FileEnt) : String :=
  let cidRes := if g.has_concept_id_attr then g.concept_id_method
                else Except.ok ("granule_" ++ toString i)
  match cidRes with
  | .error _ => "  - Downloaded file " ++ toString i
  | .ok cid =>
      let fname := match f.path with
        | some p => basename p
        | none => "file_" ++ toString i
      let fsize := match f.size with
        | some b => " (" ++ format_mb b ++ " MB)"
        | none => ""
      "  - " ++ cid ++ ": " ++ fname ++ fsize

/-- The manifest lines of `download`: one line per pair of
`enumerate(zip(granules[:len(downloaded_files)], downloaded_files))`. -/
def manifestLines (granules : List Granule) (files : List FileEnt) : List String :=
  (((granules.take files.length).zip files).enum).map (fun p => manifestLine p.1 p.2.1 p.2.2)

/-- The literal authentication error string of `download`. -/
def authError : String :=
  "Error: Failed to authenticate with earthaccess. Please check your credentials."

/-- The literal precondition error string of `download`. -/
def preconditionError : String :=
  "Error: Either concept_ids or search parameters (daac, short_name) must be provided."

/-- The literal empty-search-result string of `download`. -/
def noGranulesError : String := "No granules found matching the specified criteria."

/-- Embeds the truncation step of `download`: `if not concept_ids and
len(granules) > count: granules = granules[:count]`. -/
def truncGranules (concept_ids : Option String) (count : Nat) (granules0 : List Granule) :
    List Granule :=
  if cidsTruthy concept_ids = false ∧ count < granules0.length
  then granules0.take count else granules0

/-- The part of `download` after the granule list is obtained: empty-result
check, truncation to `count` on the no-concept-ids path only, directory
creation, batch download, and manifest assembly. -/
def finishDownload (env : Env) (local_path : String) (concept_ids : Option String)
    (count : Nat) (granules0 : List Granule) : DlM String := do
  if granules0.isEmpty then
    return noGranulesError
  let granules := truncGranules concept_ids count granules0
  emit (Event.makedirs local_path)
  liftE (env.makedirs local_path)
  emit (Event.downloadCall granules.length local_path)
  let files ← liftE (env.download_files granules local_path)
  if files.isEmpty then
    return ("No files were downloaded. Check permissions and available space in " ++ local_path)
  let header := "Successfully downloaded " ++ toString files.length ++ " files to "
                ++ local_path ++ ":"
  return String.intercalate "\n" (header :: manifestLines granules files)

/-- The body of `download` inside the whole-operation `try`. -/
def downloadBody (env : Env) (local_path : String)
    (daac short_name concept_ids startdate stopdate : Option String) (count : Nat) :
    DlM String := do
  emit Event.login
  let auth ← liftE env.login
  if auth = false then
    return authError
  if cidsTruthy concept_ids then
    let gs ← lookupAll env (splitStrip (concept_ids.getD ""))
    finishDownload env local_path concept_ids count gs
  else
    let args := download_args daac short_name startdate stopdate
    if download_args_empty args then
      return preconditionError
    emit (Event.searchData (some count) args)
    let gs ← liftE (env.search_data (some count) args)
    finishDownload env local_path concept_ids count gs

/-- Embeds `download`: runs the body from an empty trace; the
whole-operation `except` turns any uncaught exception into the
`Error downloading files:` string.  Returns the response text together
with the trace of collaborator calls performed. -/
def download (env : Env) (local_path : String)
    (daac short_name concept_ids startdate stopdate : Option String) (count : Nat) :
    String × List Event :=
  match downloadBody env local_path daac short_name concept_ids startdate stopdate count [] with
  | (.ok r, t) => (r, t)
  | (.err e, t) => ("Error downloading files: " ++ e, t)

/-- Recognizes a per-identifier lookup call in the trace: a `search_data`
call without a `count` keyword (exactly the form used by the concept-id
branch of `download`). -/
def isCidLookup : Event → Bool
  | .searchData none _ => true
  | _ => false

/-- The per-identifier lookup results accumulated by the concept-id branch
of `download`: for each identifier in order, the granules its lookup
returned, or nothing when that lookup raised. -/
def gather (env : Env) : List String → List Granule
  | [] => []
  | cid :: rest =>
      (match env.search_data none (cid_args cid) with
        | .ok res => res
        | .error _ => []) ++ gather env rest

/-- A collaborator stub used to instantiate theorems at concrete inputs:
every call succeeds with an empty result and login is authenticated. -/
def trivialEnv : Env :=
  { search_datasets := fun _ _ => Except.ok []
    search_data := fun _ _ => Except.ok []
    login := Except.ok true
    makedirs := fun _ => Except.ok ()
    download_files := fun _ _ => Except.ok [] }

/-! ## Unfolding lemmas for the download monad -/

theorem DlM.bind_apply {α β : Type} (x : DlM α) (f : α → DlM β) (s : List Event) :
    (x >>= f) s = match x s with
      | (.ok a, s1) => f a s1
      | (.err e, s1) => (.err e, s1) := rfl

theorem DlM.pure_apply {α : Type} (a : α) (s : List Event) :
    (Pure.pure a : DlM α) s = (.ok a, s) := rfl

theorem emit_apply (e : Event) (s : List Event) : emit e s = (.ok (), s ++ [e]) := rfl

theorem liftE_ok {α : Type} (a : α) (s : List Event) :
    liftE (Except.ok a) s = (.ok a, s) := rfl

theorem liftE_error {α : Type} (m : String) (s : List Event) :
    liftE (α := α) (Except.error m) s = (.err m, s) := rfl

/-- Running the per-identifier lookup loop never raises: it returns the
accumulated `gather` results and appends one lookup event per identifier,
in order. -/
theorem lookupAll_apply (env : Env) (ids : List String) (s : List Event) :
    lookupAll env ids s =
      (.ok (gather env ids), s ++ ids.map (fun c => Event.searchData none (cid_args c))) := by
  induction ids generalizing s with
  | nil => simp [lookupAll, gather, Pure.pure, DlM.pure]
  | cons c rest ih =>
      simp [lookupAll, gather, DlM.bind_apply, emit_apply, ih, DlM.pure_apply]

/-- The trace of `download` is the trace of its body run from the empty
trace: the whole-operation `except` does not change the calls performed. -/
theorem download_trace_eq (env : Env) (lp : String)
    (d sn c sd st : Option String) (n : Nat) :
    (download env lp d sn c sd st n).2 =
      (downloadBody env lp d sn c sd st n []).2 := by
  unfold download
  rcases h : downloadBody env lp d sn c sd st n [] with ⟨r | e, t⟩ <;> simp [h]

/-- Success-path characterization of the tail of `download`: with a
non-empty granule list, a succeeding `makedirs`, a succeeding batch
download and a non-empty file list, the manifest is produced and the
directory-creation and batch-download calls are appended to the trace. -/
theorem finishDownload_success (env : Env) (lp : String) (cids : Option String) (cnt : Nat)
    (gs0 : List Granule) (fs : List FileEnt) (s : List Event)
    (h1 : gs0.isEmpty = false)
    (hmk : env.makedirs lp = Except.ok ())
    (hdl : env.download_files (truncGranules cids cnt gs0) lp = Except.ok fs)
    (hfs : fs.isEmpty = false) :
    finishDownload env lp cids cnt gs0 s =
      (.ok (String.intercalate "\n"
        (("Successfully downloaded " ++ toString fs.length ++ " files to " ++ lp ++ ":")
          :: manifestLines (truncGranules cids cnt gs0) fs)),
       s ++ [Event.makedirs lp, Event.downloadCall (truncGranules cids cnt gs0).length lp]) := by
  simp [finishDownload, h1, DlM.bind_apply, emit_apply, hmk, liftE_ok, hdl, hfs,
    DlM.pure_apply, Pure.pure, DlM.pure]

/-- The tail of `download` appends no per-identifier lookup event to the
trace, whatever path it takes. -/
theorem finishDownload_trace (env : Env) (lp : String) (cids : Option String) (cnt : Nat)
    (gs0 : List Granule) (s : List Event) :
    ∃ r t, finishDownload env lp cids cnt gs0 s = (r, s ++ t) ∧ t.filter isCidLookup = [] := by
  by_cases h1 : gs0.isEmpty
  · exact ⟨DlRes.ok noGranulesError, [],
      by simp [finishDownload, h1, DlM.pure_apply, Pure.pure, DlM.pure], rfl⟩
  · simp only [Bool.not_eq_true] at h1
    cases hmk : env.makedirs lp with
    | error m =>
        refine ⟨DlRes.err m, [Event.makedirs lp], ?_, rfl⟩
        simp [finishDownload, h1, DlM.bind_apply, emit_apply, hmk, liftE_error,
          Pure.pure, DlM.pure]
    | ok u =>
        cases u
        cases hdl : env.download_files (truncGranules cids cnt gs0) lp with
        | error m =>
            refine ⟨DlRes.err m,
              [Event.makedirs lp, Event.downloadCall (truncGranules cids cnt gs0).length lp],
              ?_, rfl⟩
            simp [finishDownload, h1, DlM.bind_apply, emit_apply, hmk, liftE_ok, hdl, liftE_error,
              isCidLookup, Pure.pure, DlM.pure]
        | ok fs =>
            by_cases hfs : fs.isEmpty
            · refine ⟨DlRes.ok
                ("No files were downloaded. Check permissions and available space in " ++ lp),
                [Event.makedirs lp, Event.downloadCall (truncGranules cids cnt gs0).length lp],
                ?_, rfl⟩
              simp [finishDownload, h1, DlM.bind_apply, emit_apply, hmk, liftE_ok, hdl, hfs,
                DlM.pure_apply, Pure.pure, DlM.pure]
            · refine ⟨DlRes.ok (String.intercalate "\n"
                (("Successfully downloaded " ++ toString fs.length ++ " files to " ++ lp ++ ":")
                  :: manifestLines (truncGranules cids cnt gs0) fs)),
                [Event.makedirs lp, Event.downloadCall (truncGranules cids cnt gs0).length lp],
                ?_, rfl⟩
              simp [finishDownload, h1, DlM.bind_apply, emit_apply, hmk, liftE_ok, hdl, hfs,
                DlM.pure_apply, Pure.pure, DlM.pure]

/-- The batch-download call event is always recorded, with the granule
list actually passed, once the granule list is non-empty and the directory
creation succeeds. -/
theorem finishDownload_mem_downloadCall (env : Env) (lp : String) (cids : Option String)
    (cnt : Nat) (gs0 : List Granule) (s : List Event)
    (h1 : gs0.isEmpty = false)
    (hmk : env.makedirs lp = Except.ok ()) :
    Event.downloadCall (truncGranules cids cnt gs0).length lp ∈
      (finishDownload env lp cids cnt gs0 s).2 := by
  cases hdl : env.download_files (truncGranules cids cnt gs0) lp with
  | error m =>
      simp [finishDownload, h1, DlM.bind_apply, emit_apply, hmk, liftE_ok, hdl, liftE_error,
        Pure.pure, DlM.pure]
  | ok fs =>
      by_cases hfs : fs.isEmpty
      · simp [finishDownload, h1, DlM.bind_apply, emit_apply, hmk, liftE_ok, hdl, hfs,
          DlM.pure_apply, Pure.pure, DlM.pure]
      · simp [finishDownload, h1, DlM.bind_apply, emit_apply, hmk, liftE_ok, hdl, hfs,
          DlM.pure_apply, Pure.pure, DlM.pure]

/-- On the concept-ids branch, the body of `download` is the tail
computation applied to the gathered per-identifier results, with the login
event and one lookup event per identifier already in the trace. -/
theorem downloadBody_cids (env : Env) (lp : String) (d sn sd st : Option String)
    (cnt : Nat) (str : String) (hlogin : env.login = Except.ok true)
    (hstr : str.isEmpty = false) :
    downloadBody env lp d sn (some str) sd st cnt [] =
      finishDownload env lp (some str) cnt (gather env (splitStrip str))
        (Event.login :: (splitStrip str).map (fun c => Event.searchData none (cid_args c))) := by
  simp [downloadBody, DlM.bind_apply, emit_apply, hlogin, liftE_ok, cidsTruthy, hstr,
    lookupAll_apply, Pure.pure, DlM.pure]

/-- On the search branch, the body of `download` is the tail computation
applied to the search result, after the login and the single counted
search call. -/
theorem downloadBody_search (env : Env) (lp : String) (d sn cids sd st : Option String)
    (cnt : Nat) (gs : List Granule)
    (hlogin : env.login = Except.ok true)
    (hcids : cidsTruthy cids = false)
    (hargs : download_args_empty (download_args d sn sd st) = false)
    (hsearch : env.search_data (some cnt) (download_args d sn sd st) = Except.ok gs) :
    downloadBody env lp d sn cids sd st cnt [] =
      finishDownload env lp cids cnt gs
        [Event.login, Event.searchData (some cnt) (download_args d sn sd st)] := by
  simp [downloadBody, DlM.bind_apply, emit_apply, hlogin, liftE_ok, hcids, hargs, hsearch,
    Pure.pure, DlM.pure]

/-- Truncation is a no-op when concept ids are supplied (truthy). -/
theorem truncGranules_of_truthy (cids : Option String) (cnt : Nat) (gs0 : List Granule)
    (h : cidsTruthy cids = true) : truncGranules cids cnt gs0 = gs0 := by
  simp [truncGranules, h]

/-- The manifest has exactly one line per positional pair, so its length
is the shorter of the two list lengths. -/
theorem manifestLines_length (gs : List Granule) (fs : List FileEnt) :
    (manifestLines gs fs).length = min gs.length fs.length := by
  simp [manifestLines]
  omega

/-- Appending to a non-empty string keeps it non-empty. -/
theorem str_append_ne_empty (s t : String) (h : s ≠ "") : s ++ t ≠ "" := by
  intro he
  apply h
  apply String.ext
  have hd := congrArg String.data he
  rw [String.data_append] at hd
  simp at hd
  simp [hd]

/-! ## Environments used to instantiate the claims at concrete inputs -/

/-- Collaborator whose login reports not-authenticated. -/
def authFailEnv : Env := { trivialEnv with login := Except.ok false }

/-- Collaborator whose login call raises. -/
def loginRaiseEnv : Env := { trivialEnv with login := Except.error "boom" }

/-! ## Claims -/

/-- C2: a `download` call with `concept_ids` absent and none of `daac`,
`short_name`, `startdate`, `stopdate` supplied returns the literal
precondition error string, and its trace is just the login call, so the
collaborator's granule-search function is never invoked. -/
theorem c2_download_precondition_error (env : Env) (lp : String) (count : Nat)
    (hlogin : env.login = Except.ok true) :
    download env lp none none none none none count = (preconditionError, [Event.login]) ∧
    ∀ c a, Event.searchData c a ∉ (download env lp none none none none none count).2 := by
  have h : download env lp none none none none none count = (preconditionError, [Event.login]) := by
    simp [download, downloadBody, DlM.bind_apply, emit_apply, hlogin, liftE_ok, DlM.pure_apply,
      cidsTruthy, download_args, download_args_empty, Pure.pure, DlM.pure]
  refine ⟨h, ?_⟩
  intro c a
  rw [h]
  simp

theorem c2_download_precondition_error_witness :
    trivialEnv.login = Except.ok true ∧
    download trivialEnv "./downloads" none none none none none 5
      = (preconditionError, [Event.login]) ∧
    Event.searchData (some 5) (download_args none none none none)
      ∉ (download trivialEnv "./downloads" none none none none none 5).2 :=
  ⟨rfl, (c2_download_precondition_error trivialEnv "./downloads" 5 rfl).1,
    (c2_download_precondition_error trivialEnv "./downloads" 5 rfl).2
      (some 5) (download_args none none none none)⟩

/-- C3: a `download` call whose login reports not-authenticated returns the
literal authentication error string and performs no search, no directory
creation and no batch-download call: the trace is just the login. -/
theorem c3_download_auth_failure (env : Env) (lp : String)
    (d sn c sd st : Option String) (n : Nat)
    (hlogin : env.login = Except.ok false) :
    download env lp d sn c sd st n = (authError, [Event.login]) ∧
    (∀ cnt a, Event.searchData cnt a ∉ (download env lp d sn c sd st n).2) ∧
    (∀ p, Event.makedirs p ∉ (download env lp d sn c sd st n).2) ∧
    (∀ k p, Event.downloadCall k p ∉ (download env lp d sn c sd st n).2) := by
  have h : download env lp d sn c sd st n = (authError, [Event.login]) := by
    simp [download, downloadBody, DlM.bind_apply, emit_apply, hlogin, liftE_ok, DlM.pure_apply,
      Pure.pure, DlM.pure]
  refine ⟨h, ?_, ?_, ?_⟩ <;> intros <;> rw [h] <;> simp

theorem c3_download_auth_failure_witness :
    authFailEnv.login = Except.ok false ∧
    download authFailEnv "./downloads" (some "PODAAC") none (some "A,B") none none 5
      = (authError, [Event.login]) ∧
    Event.searchData none (cid_args "A")
      ∉ (download authFailEnv "./downloads" (some "PODAAC") none (some "A,B") none none 5).2 ∧
    Event.makedirs "./downloads"
      ∉ (download authFailEnv "./downloads" (some "PODAAC") none (some "A,B") none none 5).2 ∧
    Event.downloadCall 1 "./downloads"
      ∉ (download authFailEnv "./downloads" (some "PODAAC") none (some "A,B") none none 5).2 :=
  ⟨rfl,
    (c3_download_auth_failure authFailEnv "./downloads" (some "PODAAC") none (some "A,B")
      none none 5 rfl).1,
    (c3_download_auth_failure authFailEnv "./downloads" (some "PODAAC") none (some "A,B")
      none none 5 rfl).2.1 none (cid_args "A"),
    (c3_download_auth_failure authFailEnv "./downloads" (some "PODAAC") none (some "A,B")
      none none 5 rfl).2.2.1 "./downloads",
    (c3_download_auth_failure authFailEnv "./downloads" (some "PODAAC") none (some "A,B")
      none none 5 rfl).2.2.2 1 "./downloads"⟩

/-- C5: whenever at least one of the two dates is supplied, both search
tools pass the dates to the collaborator as the single paired `temporal`
argument `(startdate, stopdate)`, and the assembled arguments differ from
the dateless ones only in that paired field — the dates are never passed
as two independent parameters. -/
theorem c5_paired_temporal_range (sd st dc kw sn : Option String)
    (h : sd.isSome ∨ st.isSome) :
    (get_datasets_args sd st dc kw).temporal = some (sd, st) ∧
    (get_data_args dc sn sd st).temporal = some (sd, st) ∧
    get_datasets_args sd st dc kw =
      { get_datasets_args none none dc kw with temporal := some (sd, st) } ∧
    get_data_args dc sn sd st =
      { get_data_args dc sn none none with temporal := some (sd, st) } := by
  have hb : (sd.isSome || st.isSome) = true := by
    rcases h with h | h <;> simp [h]
  refine ⟨?_, ?_, ?_, ?_⟩ <;> simp [get_datasets_args, get_data_args, hb]

theorem c5_paired_temporal_range_witness :
    ((some "2020-01-01" : Option String).isSome ∨ (some "2020-12-31" : Option String).isSome) ∧
    ((get_datasets_args (some "2020-01-01") (some "2020-12-31") (some "PODAAC") none).temporal
        = some (some "2020-01-01", some "2020-12-31") ∧
      (get_data_args (some "PODAAC") none (some "2020-01-01") (some "2020-12-31")).temporal
        = some (some "2020-01-01", some "2020-12-31") ∧
      get_datasets_args (some "2020-01-01") (some "2020-12-31") (some "PODAAC") none =
        { get_datasets_args none none (some "PODAAC") none with
            temporal := some (some "2020-01-01", some "2020-12-31") } ∧
      get_data_args (some "PODAAC") none (some "2020-01-01") (some "2020-12-31") =
        { get_data_args (some "PODAAC") none none none with
            temporal := some (some "2020-01-01", some "2020-12-31") }) :=
  ⟨Or.inl rfl, c5_paired_temporal_range (some "2020-01-01") (some "2020-12-31")
    (some "PODAAC") none none (Or.inl rfl)⟩

/-- C10: a `download` call with `concept_ids` equal to the empty string
behaves exactly as if `concept_ids` were absent (the empty string is falsy,
so the search-parameter branch runs and no per-identifier lookup happens);
in particular, with no other search parameter it returns the precondition
error string after the login call only. -/
theorem c10_empty_concept_ids_like_absent (env : Env) (lp : String) (count : Nat) :
    (∀ d sn sd st, download env lp d sn (some "") sd st count
        = download env lp d sn none sd st count) ∧
    (env.login = Except.ok true →
      download env lp none none (some "") none none count
        = (preconditionError, [Event.login])) := by
  refine ⟨fun d sn sd st => rfl, fun hlogin => ?_⟩
  simp [download, downloadBody, DlM.bind_apply, emit_apply, hlogin, liftE_ok, DlM.pure_apply,
    cidsTruthy, download_args, download_args_empty, Pure.pure, DlM.pure]
  rfl

theorem c10_empty_concept_ids_like_absent_witness :
    download trivialEnv "./downloads" (some "PODAAC") none (some "") none none 5
      = download trivialEnv "./downloads" (some "PODAAC") none none none none 5 ∧
    download trivialEnv "./downloads" none none (some "") none none 5
      = (preconditionError, [Event.login]) :=
  ⟨(c10_empty_concept_ids_like_absent trivialEnv "./downloads" 5).1 (some "PODAAC") none none none,
    (c10_empty_concept_ids_like_absent trivialEnv "./downloads" 5).2 rfl⟩

/-- Collaborator whose search calls raise. -/
def searchRaiseEnv : Env :=
  { trivialEnv with
      search_datasets := fun _ _ => Except.error "missing FileDistributionInformation"
      search_data := fun _ _ => Except.error "bad request" }

/-- C8: exceptions raised inside the body of `download` are caught at the
whole-operation boundary and returned as the `Error downloading files:`
string (shown here for a raising login and for a raising search call),
whereas a collaborator failure inside `get_datasets` or `get_data`
propagates unhandled out of the operation. -/
theorem c8_download_catches_search_propagates (env : Env) (lp : String)
    (daac sn cids sd st kw : Option String) (count : Nat) (m : String) :
    (env.login = Except.error m →
      download env lp daac sn cids sd st count
        = ("Error downloading files: " ++ m, [Event.login])) ∧
    (env.login = Except.ok true → cidsTruthy cids = false →
      download_args_empty (download_args daac sn sd st) = false →
      env.search_data (some count) (download_args daac sn sd st) = Except.error m →
      download env lp daac sn cids sd st count
        = ("Error downloading files: " ++ m,
           [Event.login, Event.searchData (some count) (download_args daac sn sd st)])) ∧
    (env.search_datasets 5 (get_datasets_args sd st daac kw) = Except.error m →
      get_datasets env sd st daac kw = Except.error m) ∧
    (env.search_data (some 10) (get_data_args daac sn sd st) = Except.error m →
      get_data env daac sn sd st kw = Except.error m) := by
  refine ⟨fun hlogin => ?_, fun hlogin hcids hargs hsearch => ?_, fun h => ?_, fun h => ?_⟩
  · simp [download, downloadBody, DlM.bind_apply, emit_apply, hlogin, liftE_error,
      Pure.pure, DlM.pure]
  · simp [download, downloadBody, DlM.bind_apply, emit_apply, hlogin, liftE_ok, hcids, hargs,
      hsearch, liftE_error, Pure.pure, DlM.pure]
  · unfold get_datasets
    rw [h]
    rfl
  · simp [get_data, h, Except.bind]

theorem c8_download_catches_search_propagates_witness :
    loginRaiseEnv.login = Except.error "boom" ∧
    download loginRaiseEnv "./downloads" none none none none none 5
      = ("Error downloading files: " ++ "boom", [Event.login]) ∧
    searchRaiseEnv.search_data (some 5) (download_args (some "PODAAC") none none none)
      = Except.error "bad request" ∧
    download searchRaiseEnv "./downloads" (some "PODAAC") none none none none 5
      = ("Error downloading files: " ++ "bad request",
         [Event.login, Event.searchData (some 5) (download_args (some "PODAAC") none none none)]) ∧
    searchRaiseEnv.search_datasets 5 (get_datasets_args none none (some "PODAAC") none)
      = Except.error "missing FileDistributionInformation" ∧
    get_datasets searchRaiseEnv none none (some "PODAAC") none
      = Except.error "missing FileDistributionInformation" ∧
    get_data searchRaiseEnv (some "PODAAC") none none none none
      = Except.error "bad request" :=
  ⟨rfl,
    (c8_download_catches_search_propagates loginRaiseEnv "./downloads" none none none none none
      none 5 "boom").1 rfl,
    rfl,
    (c8_download_catches_search_propagates searchRaiseEnv "./downloads" (some "PODAAC") none none
      none none none 5 "bad request").2.1 rfl rfl rfl rfl,
    rfl,
    (c8_download_catches_search_propagates searchRaiseEnv "./downloads" (some "PODAAC") none none
      none none none 5 "missing FileDistributionInformation").2.2.1 rfl,
    (c8_download_catches_search_propagates searchRaiseEnv "./downloads" (some "PODAAC") none none
      none none none 5 "bad request").2.2.2 rfl⟩

/-- C4: a `download` call with a comma-separated `concept_ids` string
performs exactly one per-identifier lookup for each identifier, in order
(the lookup events in the trace are exactly one per identifier), and a
raising lookup does not fail the operation: the accumulated granule list
is `gather`, which skips a raising identifier and keeps the results of the
remaining ones, and it is what reaches the batch-download call. -/
theorem c4_download_per_identifier_lookups (env : Env) (lp : String)
    (d sn sd st : Option String) (cnt : Nat) (str : String)
    (hlogin : env.login = Except.ok true) (hstr : str.isEmpty = false) :
    ((download env lp d sn (some str) sd st cnt).2).filter isCidLookup
      = (splitStrip str).map (fun c => Event.searchData none (cid_args c)) ∧
    ((gather env (splitStrip str)).isEmpty = false → env.makedirs lp = Except.ok () →
      Event.downloadCall (gather env (splitStrip str)).length lp
        ∈ (download env lp d sn (some str) sd st cnt).2) := by
  constructor
  · rw [download_trace_eq, downloadBody_cids env lp d sn sd st cnt str hlogin hstr]
    obtain ⟨r, t, heq, hfilt⟩ := finishDownload_trace env lp (some str) cnt
      (gather env (splitStrip str))
      (Event.login :: (splitStrip str).map (fun c => Event.searchData none (cid_args c)))
    rw [heq]
    simp [List.filter_append, hfilt, isCidLookup, List.filter_map, Function.comp]
    congr 1
    exact List.filter_eq_self.mpr (fun a _ => rfl)
  · intro hne hmk
    rw [download_trace_eq, downloadBody_cids env lp d sn sd st cnt str hlogin hstr]
    have h := finishDownload_mem_downloadCall env lp (some str) cnt
      (gather env (splitStrip str))
      (Event.login :: (splitStrip str).map (fun c => Event.searchData none (cid_args c))) hne hmk
    rwa [truncGranules_of_truthy (some str) cnt _ (by simp [cidsTruthy, hstr])] at h

/-- A granule used to instantiate the download claims. -/
def sampleGranule : Granule :=
  { meta_concept_id := Except.ok "G-0001"
    temporal := Except.ok none
    size := Except.error "no size"
    data_links := Except.ok ["https://example.org/d.nc"]
    has_concept_id_attr := true
    concept_id_method := Except.ok "G-0001" }

/-- Collaborator for which the lookup of identifier `A` raises and every
other per-identifier lookup returns one granule. -/
def cidPartialEnv : Env :=
  { trivialEnv with
      search_data := fun _ a =>
        if a.concept_id = some "A" then Except.error "boom"
        else Except.ok [sampleGranule] }

theorem c4_download_per_identifier_lookups_witness :
    cidPartialEnv.login = Except.ok true ∧
    "A,B".isEmpty = false ∧
    ((download cidPartialEnv "./downloads" none none (some "A,B") none none 5).2).filter
        isCidLookup
      = (splitStrip "A,B").map (fun c => Event.searchData none (cid_args c)) ∧
    ((gather cidPartialEnv (splitStrip "A,B")).isEmpty = false →
      cidPartialEnv.makedirs "./downloads" = Except.ok () →
      Event.downloadCall (gather cidPartialEnv (splitStrip "A,B")).length "./downloads"
        ∈ (download cidPartialEnv "./downloads" none none (some "A,B") none none 5).2) :=
  ⟨rfl, rfl,
    (c4_download_per_identifier_lookups cidPartialEnv "./downloads" none none none none 5
      "A,B" rfl rfl).1,
    (c4_download_per_identifier_lookups cidPartialEnv "./downloads" none none none none 5
      "A,B" rfl rfl).2⟩

set_option linter.unusedVariables false in
/-- C9: with a non-empty `concept_ids` string, the `count` parameter is
never applied: the batch-download call receives every granule accumulated
by the per-identifier lookups, even when the accumulated list is longer
than `count` (and the truncation step itself is a no-op on this path). -/
theorem c9_no_truncation_with_concept_ids (env : Env) (lp : String)
    (d sn sd st : Option String) (cnt : Nat) (str : String)
    (hlogin : env.login = Except.ok true) (hstr : str.isEmpty = false)
    (hne : (gather env (splitStrip str)).isEmpty = false)
    (hmk : env.makedirs lp = Except.ok ())
    (hgt : cnt < (gather env (splitStrip str)).length) :
    Event.downloadCall (gather env (splitStrip str)).length lp
      ∈ (download env lp d sn (some str) sd st cnt).2 ∧
    (∀ gs0 : List Granule, truncGranules (some str) cnt gs0 = gs0) := by
  constructor
  · rw [download_trace_eq, downloadBody_cids env lp d sn sd st cnt str hlogin hstr]
    have h := finishDownload_mem_downloadCall env lp (some str) cnt
      (gather env (splitStrip str))
      (Event.login :: (splitStrip str).map (fun c => Event.searchData none (cid_args c))) hne hmk
    rwa [truncGranules_of_truthy (some str) cnt _ (by simp [cidsTruthy, hstr])] at h
  · intro gs0
    exact truncGranules_of_truthy (some str) cnt gs0 (by simp [cidsTruthy, hstr])

/-- Collaborator for which every per-identifier lookup returns two
granules, so that two identifiers accumulate four granules. -/
def cidManyEnv : Env :=
  { trivialEnv with
      search_data := fun _ _ => Except.ok [sampleGranule, sampleGranule] }

theorem c9_no_truncation_with_concept_ids_witness :
    cidManyEnv.login = Except.ok true ∧
    "A,B".isEmpty = false ∧
    (gather cidManyEnv (splitStrip "A,B")).isEmpty = false ∧
    cidManyEnv.makedirs "./downloads" = Except.ok () ∧
    1 < (gather cidManyEnv (splitStrip "A,B")).length ∧
    Event.downloadCall (gather cidManyEnv (splitStrip "A,B")).length "./downloads"
      ∈ (download cidManyEnv "./downloads" none none (some "A,B") none none 1).2 ∧
    truncGranules (some "A,B") 1 [sampleGranule, sampleGranule]
      = [sampleGranule, sampleGranule] :=
  ⟨rfl, rfl, by decide, rfl, by decide,
    (c9_no_truncation_with_concept_ids cidManyEnv "./downloads" none none none none 1 "A,B"
      rfl rfl (by decide) rfl (by decide)).1,
    (c9_no_truncation_with_concept_ids cidManyEnv "./downloads" none none none none 1 "A,B"
      rfl rfl (by decide) rfl (by decide)).2 [sampleGranule, sampleGranule]⟩

/-- C7: on the no-concept-ids path, when the search returns more than
`count` granules, the batch-download call receives exactly `count` granules
(the list is truncated before the call); and on success the manifest is
the header line followed by one line per positional pair of granules and
downloaded files, truncated to the shorter of the two lists. -/
theorem c7_truncation_and_manifest_pairing (env : Env) (lp : String)
    (d sn sd st : Option String) (cnt : Nat) (gs : List Granule) (fs : List FileEnt)
    (hlogin : env.login = Except.ok true)
    (hargs : download_args_empty (download_args d sn sd st) = false)
    (hsearch : env.search_data (some cnt) (download_args d sn sd st) = Except.ok gs)
    (hgt : cnt < gs.length)
    (hmk : env.makedirs lp = Except.ok ())
    (hdl : env.download_files (gs.take cnt) lp = Except.ok fs)
    (hfs : fs.isEmpty = false) :
    download env lp d sn none sd st cnt =
      (String.intercalate "\n"
        (("Successfully downloaded " ++ toString fs.length ++ " files to " ++ lp ++ ":")
          :: manifestLines (gs.take cnt) fs),
       [Event.login, Event.searchData (some cnt) (download_args d sn sd st),
        Event.makedirs lp, Event.downloadCall cnt lp]) ∧
    (manifestLines (gs.take cnt) fs).length = min cnt fs.length := by
  have htr : truncGranules none cnt gs = gs.take cnt := by
    simp [truncGranules, cidsTruthy, hgt]
  have hne : gs.isEmpty = false := by
    cases gs with
    | nil => simp at hgt
    | cons a l => rfl
  have hdl2 : env.download_files (truncGranules none cnt gs) lp = Except.ok fs := by
    rw [htr]; exact hdl
  have hbody := downloadBody_search env lp d sn none sd st cnt gs hlogin rfl hargs hsearch
  have hfin := finishDownload_success env lp none cnt gs fs
    [Event.login, Event.searchData (some cnt) (download_args d sn sd st)] hne hmk hdl2 hfs
  constructor
  · unfold download
    rw [hbody, hfin, htr]
    simp [List.length_take]
    omega
  · rw [manifestLines_length]
    simp [List.length_take]
    omega

/-- Collaborator whose counted search returns two granules and whose batch
download returns one file path. -/
def searchTwoEnv : Env :=
  { trivialEnv with
      search_data := fun _ _ => Except.ok [sampleGranule, sampleGranule]
      download_files := fun _ _ =>
        Except.ok [{ path := some "/tmp/downloads/d.nc", size := some 1048576 }] }

theorem c7_truncation_and_manifest_pairing_witness :
    searchTwoEnv.login = Except.ok true ∧
    download_args_empty (download_args (some "PODAAC") none none none) = false ∧
    searchTwoEnv.search_data (some 1) (download_args (some "PODAAC") none none none)
      = Except.ok [sampleGranule, sampleGranule] ∧
    1 < ([sampleGranule, sampleGranule] : List Granule).length ∧
    searchTwoEnv.makedirs "./downloads" = Except.ok () ∧
    searchTwoEnv.download_files ([sampleGranule, sampleGranule].take 1) "./downloads"
      = Except.ok [{ path := some "/tmp/downloads/d.nc", size := some 1048576 }] ∧
    ([({ path := some "/tmp/downloads/d.nc", size := some 1048576 } : FileEnt)].isEmpty
      = false) ∧
    download searchTwoEnv "./downloads" (some "PODAAC") none none none none 1 =
      (String.intercalate "\n"
        (("Successfully downloaded "
            ++ toString ([({ path := some "/tmp/downloads/d.nc", size := some 1048576 }
              : FileEnt)] : List FileEnt).length ++ " files to " ++ "./downloads" ++ ":")
          :: manifestLines ([sampleGranule, sampleGranule].take 1)
              [{ path := some "/tmp/downloads/d.nc", size := some 1048576 }]),
       [Event.login, Event.searchData (some 1) (download_args (some "PODAAC") none none none),
        Event.makedirs "./downloads", Event.downloadCall 1 "./downloads"]) ∧
    (manifestLines ([sampleGranule, sampleGranule].take 1)
        [{ path := some "/tmp/downloads/d.nc", size := some 1048576 }]).length
      = min 1 ([({ path := some "/tmp/downloads/d.nc", size := some 1048576 }
          : FileEnt)] : List FileEnt).length :=
  ⟨rfl, rfl, rfl, by decide, rfl, rfl, rfl,
    (c7_truncation_and_manifest_pairing searchTwoEnv "./downloads" (some "PODAAC") none none none
      1 [sampleGranule, sampleGranule]
      [{ path := some "/tmp/downloads/d.nc", size := some 1048576 }]
      rfl rfl rfl (by decide) rfl rfl rfl).1,
    (c7_truncation_and_manifest_pairing searchTwoEnv "./downloads" (some "PODAAC") none none none
      1 [sampleGranule, sampleGranule]
      [{ path := some "/tmp/downloads/d.nc", size := some 1048576 }]
      rfl rfl rfl (by decide) rfl rfl rfl).2⟩

/-- C6: granule formatting renders each field independently: a granule
with no temporal data has no temporal line; a granule whose size lookup
fails has no size line; exactly one data link yields a single
`Data Link:` line; two or more data links yield a `Data Links:` header
with one indented bullet per link; and a granule whose concept-id
extraction raises yields the minimal `ConceptID: Unknown` line instead of
being omitted. -/
theorem c6_format_granule_fields (cid b e l l1 l2 em es : String) (ls : List String)
    (hb : b ≠ "") (he : e ≠ "") :
    format_granule
        { meta_concept_id := Except.ok cid, temporal := Except.ok none,
          size := Except.error es, data_links := Except.ok [l] }
      = String.intercalate "\n" ["ConceptID: " ++ cid, "Data Link: " ++ l] ∧
    format_granule
        { meta_concept_id := Except.ok cid, temporal := Except.ok (some ⟨b, e⟩),
          size := Except.error es, data_links := Except.ok [l] }
      = String.intercalate "\n"
          ["ConceptID: " ++ cid, "Temporal: " ++ b ++ " to " ++ e, "Data Link: " ++ l] ∧
    format_granule
        { meta_concept_id := Except.ok cid, temporal := Except.ok none,
          size := Except.error es, data_links := Except.ok (l1 :: l2 :: ls) }
      = String.intercalate "\n"
          ["ConceptID: " ++ cid,
           "Data Links:\n"
             ++ String.intercalate "\n" ((l1 :: l2 :: ls).map (fun x => "  - " ++ x))] ∧
    (∀ g : Granule, g.meta_concept_id = Except.error em →
      format_granule g = "ConceptID: Unknown") := by
  have hlink : ("Data Link: " ++ l) ≠ "" :=
    str_append_ne_empty _ _ (by decide)
  have hlinks : ("Data Links:\n" ++ String.intercalate "\n"
      ((l1 :: l2 :: ls).map (fun x => "  - " ++ x))) ≠ "" :=
    str_append_ne_empty _ _ (by decide)
  have htemp : ("Temporal: " ++ b ++ " to " ++ e) ≠ "" :=
    str_append_ne_empty _ _ (str_append_ne_empty _ _ (str_append_ne_empty _ _ (by decide)))
  refine ⟨?_, ?_, ?_, ?_⟩
  · simp [format_granule, temporal_info, size_info, links_info, hlink]
  · simp [format_granule, temporal_info, size_info, links_info, hb, he, htemp, hlink]
  · simp only [List.map_cons] at hlinks
    simp [format_granule, temporal_info, size_info, links_info, hlinks]
  · intro g hg
    simp [format_granule, hg]

/-- A granule whose concept-id extraction raises. -/
def rawFailGranule : Granule :=
  { meta_concept_id := Except.error "meta is not a dict"
    temporal := Except.ok none
    size := Except.error "no size"
    data_links := Except.ok [] }

theorem c6_format_granule_fields_witness :
    ("2020-01-01" : String) ≠ "" ∧ ("2020-12-31" : String) ≠ "" ∧
    format_granule
        { meta_concept_id := Except.ok "G-0001", temporal := Except.ok none,
          size := Except.error "no size", data_links := Except.ok ["https://example.org/a.nc"] }
      = String.intercalate "\n"
          ["ConceptID: " ++ "G-0001", "Data Link: " ++ "https://example.org/a.nc"] ∧
    format_granule
        { meta_concept_id := Except.ok "G-0001",
          temporal := Except.ok (some ⟨"2020-01-01", "2020-12-31"⟩),
          size := Except.error "no size", data_links := Except.ok ["https://example.org/a.nc"] }
      = String.intercalate "\n"
          ["ConceptID: " ++ "G-0001", "Temporal: " ++ "2020-01-01" ++ " to " ++ "2020-12-31",
           "Data Link: " ++ "https://example.org/a.nc"] ∧
    format_granule
        { meta_concept_id := Except.ok "G-0001", temporal := Except.ok none,
          size := Except.error "no size",
          data_links := Except.ok ("https://example.org/a.nc" :: "https://example.org/b.nc" :: []) }
      = String.intercalate "\n"
          ["ConceptID: " ++ "G-0001",
           "Data Links:\n" ++ String.intercalate "\n"
             (("https://example.org/a.nc" :: "https://example.org/b.nc" :: []).map
               (fun x => "  - " ++ x))] ∧
    format_granule rawFailGranule = "ConceptID: Unknown" :=
  ⟨by decide, by decide,
    (c6_format_granule_fields "G-0001" "2020-01-01" "2020-12-31" "https://example.org/a.nc"
      "https://example.org/a.nc" "https://example.org/b.nc" "meta is not a dict" "no size" []
      (by decide) (by decide)).1,
    (c6_format_granule_fields "G-0001" "2020-01-01" "2020-12-31" "https://example.org/a.nc"
      "https://example.org/a.nc" "https://example.org/b.nc" "meta is not a dict" "no size" []
      (by decide) (by decide)).2.1,
    (c6_format_granule_fields "G-0001" "2020-01-01" "2020-12-31" "https://example.org/a.nc"
      "https://example.org/a.nc" "https://example.org/b.nc" "meta is not a dict" "no size" []
      (by decide) (by decide)).2.2.1,
    (c6_format_granule_fields "G-0001" "2020-01-01" "2020-12-31" "https://example.org/a.nc"
      "https://example.org/a.nc" "https://example.org/b.nc" "meta is not a dict" "no size" []
      (by decide) (by decide)).2.2.2 rawFailGranule rfl⟩

/-- A collection record whose rendering fails inside the guarded block
renders as the empty string, provided its concept-id accessor succeeds. -/
theorem format_dataset_empty_of (c : Collection) (s : String)
    (h : c.concept_id = Except.ok s)
    (hfail : (∃ m, c.abstract = Except.error m) ∨ (∃ m, c.summary_short_name = Except.error m)) :
    format_dataset c = Except.ok "" := by
  rcases hfail with ⟨m, hm⟩ | ⟨m, hm⟩
  · simp [format_dataset, h, hm, Except.bind]
  · rcases hab : c.abstract with m2 | ab <;> simp [format_dataset, h, hm, hab, Except.bind]

/-- A collection record whose concept-id accessor succeeds never makes
`format_dataset` raise. -/
theorem format_dataset_isOk (c : Collection) (s : String)
    (h : c.concept_id = Except.ok s) :
    ∃ r, format_dataset c = Except.ok r := by
  rcases hab : c.abstract with m2 | ab
  · exact ⟨"", by simp [format_dataset, h, hab, Except.bind]⟩
  · rcases hsn : c.summary_short_name with m3 | sn
    · exact ⟨"", by simp [format_dataset, h, hab, hsn, Except.bind]⟩
    · exact ⟨"\nConceptID: " ++ s ++ "\nDescription: " ++ ab ++ "\nShortname: " ++ sn ++ "\n",
        by simp [format_dataset, h, hab, hsn, Except.bind]⟩

/-- Formatting a list of collections whose concept-id accessors all
succeed produces one rendered string per record. -/
theorem mapM_format_dataset_ok (cs : List Collection)
    (h : ∀ c ∈ cs, ∃ s, c.concept_id = Except.ok s) :
    ∃ rs, cs.mapM format_dataset = Except.ok rs ∧ rs.length = cs.length := by
  induction cs with
  | nil => exact ⟨[], rfl, rfl⟩
  | cons c cs ih =>
      obtain ⟨s, hs⟩ := h c (by simp)
      obtain ⟨r, hr⟩ := format_dataset_isOk c s hs
      obtain ⟨rs, hrs, hlen⟩ := ih (fun x hx => h x (by simp [hx]))
      refine ⟨r :: rs, ?_, by simp [hlen]⟩
      rw [List.mapM_cons, hr, hrs]
      rfl

/-- C1 (amended): for every collection record whose concept-id accessor
succeeds but whose rendering otherwise fails (the abstract or summary
accessor raises, e.g. required summary metadata is missing), the record
renders as the empty string rather than raising, the whole response is not
aborted, and the joined output keeps one slot per record, so the `---`
separators around sibling records are preserved.  The restriction to a
succeeding concept-id accessor is forced: the `logger.debug` call sits
before the `try` block, so a raising concept-id accessor propagates and
aborts the whole response (see the counterexample). -/
theorem c1_collection_render_failure_contained (env : Env) (sd st dc kw : Option String)
    (cs : List Collection)
    (hsearch : env.search_datasets 5 (get_datasets_args sd st dc kw) = Except.ok cs)
    (hok : ∀ c ∈ cs, ∃ s, c.concept_id = Except.ok s) :
    (∀ c ∈ cs,
      ((∃ m, c.abstract = Except.error m) ∨ (∃ m, c.summary_short_name = Except.error m)) →
      format_dataset c = Except.ok "") ∧
    ∃ rs, cs.mapM format_dataset = Except.ok rs ∧ rs.length = cs.length ∧
      get_datasets env sd st dc kw = Except.ok (String.intercalate "\n---\n" rs) := by
  constructor
  · intro c hc hfail
    obtain ⟨s, hs⟩ := hok c hc
    exact format_dataset_empty_of c s hs hfail
  · obtain ⟨rs, hrs, hlen⟩ := mapM_format_dataset_ok cs hok
    refine ⟨rs, hrs, hlen, ?_⟩
    have hgd : get_datasets env sd st dc kw
        = (cs.mapM format_dataset).map (fun strs => String.intercalate "\n---\n" strs) := by
      unfold get_datasets
      rw [hsearch]
      rfl
    rw [hgd, hrs]
    rfl

/-- A collection record every accessor of which succeeds. -/
def goodCollection : Collection :=
  ⟨Except.ok "C-1", Except.ok "A dataset.", Except.ok "SN1"⟩

/-- A collection record whose summary accessor raises (the observed
upstream failure: missing distribution metadata), while the concept-id
accessor succeeds. -/
def softFailCollection : Collection :=
  ⟨Except.ok "C-2", Except.ok "Another dataset.",
    Except.error "missing FileDistributionInformation"⟩

/-- A collection record whose concept-id accessor itself raises. -/
def hardFailCollection : Collection :=
  ⟨Except.error "boom", Except.ok "A dataset.", Except.ok "SN1"⟩

/-- Collaborator returning a good record and a record whose concept-id
accessor raises. -/
def c1CounterEnv : Env :=
  { trivialEnv with
      search_datasets := fun _ _ => Except.ok [goodCollection, hardFailCollection] }

/-- C1 counterexample: a collection record for which rendering fails
because the concept-id accessor raises does not render as the empty
string — `format_dataset` raises (the `logger.debug(props.concept_id())`
call sits before the `try` block), and the whole `get_datasets` response
is aborted, so the claim as stated is false for such a record. -/
theorem c1_collection_render_failure_counterexample :
    format_dataset hardFailCollection = Except.error "boom" ∧
    get_datasets c1CounterEnv none none none none = Except.error "boom" := ⟨rfl, rfl⟩

/-- Collaborator returning a soft-failing record between two good ones. -/
def c1WitnessEnv : Env :=
  { trivialEnv with
      search_datasets := fun _ _ =>
        Except.ok [goodCollection, softFailCollection, goodCollection] }

theorem c1_collection_render_failure_contained_witness :
    c1WitnessEnv.search_datasets 5 (get_datasets_args none none none none)
      = Except.ok [goodCollection, softFailCollection, goodCollection] ∧
    format_dataset softFailCollection = Except.ok "" ∧
    ∃ rs, [goodCollection, softFailCollection, goodCollection].mapM format_dataset
        = Except.ok rs ∧
      rs.length = ([goodCollection, softFailCollection, goodCollection] : List Collection).length ∧
      get_datasets c1WitnessEnv none none none none
        = Except.ok (String.intercalate "\n---\n" rs) := by
  have hok : ∀ c ∈ [goodCollection, softFailCollection, goodCollection],
      ∃ s, c.concept_id = Except.ok s := by
    intro c hc
    simp [goodCollection, softFailCollection] at hc
    rcases hc with rfl | rfl | rfl
    · exact ⟨"C-1", rfl⟩
    · exact ⟨"C-2", rfl⟩
    · exact ⟨"C-1", rfl⟩
  have h := c1_collection_render_failure_contained c1WitnessEnv none none none none
    [goodCollection, softFailCollection, goodCollection] rfl hok
  exact ⟨rfl, h.1 softFailCollection (by simp) (Or.inr ⟨_, rfl⟩), h.2⟩

end CmrSearch
